import Mathlib

/-!
Shallow embedding of the X11 presentation engine of the window-system
integration layer (src/vulkan/wsi/wsi_common_x11.c), written to check the
natural-language specification of that file against the code.  Machine
integers are modelled as Nat or Int, with an explicit reduction modulo a
power of two at exactly the points where the source truncates.  Blocking
calls, server replies and cross-thread queue outcomes are explicit inputs
(environment records), so every definition is executable.
-/

namespace WsiX11

/-- VkResult code VK_SUCCESS. -/
def VK_SUCCESS : Int := 0

/-- VkResult code VK_NOT_READY. -/
def VK_NOT_READY : Int := 1

/-- VkResult code VK_TIMEOUT. -/
def VK_TIMEOUT : Int := 2

/-- VkResult code VK_SUBOPTIMAL_KHR. -/
def VK_SUBOPTIMAL_KHR : Int := 1000001003

/-- VkResult code VK_ERROR_OUT_OF_HOST_MEMORY. -/
def VK_ERROR_OUT_OF_HOST_MEMORY : Int := -1

/-- VkResult code VK_ERROR_SURFACE_LOST_KHR. -/
def VK_ERROR_SURFACE_LOST_KHR : Int := -1000000000

/-- VkResult code VK_ERROR_OUT_OF_DATE_KHR. -/
def VK_ERROR_OUT_OF_DATE_KHR : Int := -1000001004

/-- Embedding of _x11_swapchain_result (wsi_common_x11.c lines 1029-1067):
merge the result of an operation into the stored chain status.  The first
component of the returned pair is the new stored status, the second is the
value the call reports to its caller. -/
def x11_swapchain_result (status result : Int) : Int × Int :=
  if status < 0 then (status, status)
  else if result < 0 then (result, result)
  else if result = VK_TIMEOUT ∨ result = VK_NOT_READY then (status, result)
  else if result = VK_SUBOPTIMAL_KHR then (result, result)
  else (status, status)

/-- Stored status after a sequence of results is merged through the latch. -/
def statusFold (s : Int) (rs : List Int) : Int :=
  rs.foldl (fun st r => (x11_swapchain_result st r).1) s

/-- Embedding of the four VkPresentModeKHR values used by the file. -/
inductive PresentMode where
  | immediate
  | mailbox
  | fifo
  | fifoRelaxed
deriving DecidableEq

/-- Embedding of x11_needs_wait_for_fences (wsi_common_x11.c lines
1522-1539).  The first argument is the vk_xwayland_wait_ready driconf
option of the device, the second the is_xwayland flag of the connection
entry. -/
def x11_needs_wait_for_fences (xwaylandWaitReady is_xwayland : Bool)
    (present_mode : PresentMode) : Bool :=
  if is_xwayland && !xwaylandWaitReady then false
  else
    match present_mode with
    | .mailbox => true
    | .immediate => is_xwayland
    | _ => false

/-- Embedding of x11_get_min_image_count (wsi_common_x11.c lines 645-670):
the override_minImageCount option when nonzero, otherwise 3. -/
def x11_get_min_image_count (override_minImageCount : Nat) : Nat :=
  if override_minImageCount ≠ 0 then override_minImageCount else 3

/-- Embedding of the image-count resolution at the top of
x11_surface_create_swapchain (wsi_common_x11.c lines 2040-2046). -/
def x11_swapchain_image_count (minImageCount : Nat)
    (strict_imageCount ensure_minImageCount : Bool)
    (override_minImageCount : Nat) (xwaylandWaitReady is_xwayland : Bool)
    (present_mode : PresentMode) : Nat :=
  let num_images := minImageCount
  if strict_imageCount then minImageCount
  else if x11_needs_wait_for_fences xwaylandWaitReady is_xwayland present_mode then
    max num_images 5
  else if ensure_minImageCount then
    max num_images (x11_get_min_image_count override_minImageCount)
  else num_images

/-- Count of set bits, as used via util_bitcount on the visual masks. -/
def util_bitcount (n : Nat) : Nat :=
  if h : n = 0 then 0
  else n % 2 + util_bitcount (n / 2)
decreasing_by exact Nat.div_lt_self (Nat.pos_of_ne_zero h) one_lt_two

/-- The three Vulkan formats appearing in the fixed format table. -/
inductive VkFormat where
  | B8G8R8A8_SRGB
  | B8G8R8A8_UNORM
  | A2R10G10B10_UNORM_PACK32
deriving DecidableEq

/-- Embedding of struct surface_format (wsi_common_x11.c lines 418-421). -/
structure SurfaceFormat where
  format : VkFormat
  bits_per_rgb : Nat
deriving DecidableEq

/-- Embedding of the fixed format table (wsi_common_x11.c lines 423-427). -/
def formats : List SurfaceFormat :=
  [⟨.B8G8R8A8_SRGB, 8⟩, ⟨.B8G8R8A8_UNORM, 8⟩, ⟨.A2R10G10B10_UNORM_PACK32, 10⟩]

/-- Embedding of get_sorted_vk_formats (wsi_common_x11.c lines 765-794),
with the connection round-trips replaced by the red, green and blue masks
of the window visual. -/
def get_sorted_vk_formats (red_mask green_mask blue_mask : Nat)
    (force_bgra8_unorm_first : Bool) : List VkFormat :=
  let sorted := (formats.filter (fun f =>
      f.bits_per_rgb == util_bitcount red_mask &&
      f.bits_per_rgb == util_bitcount green_mask &&
      f.bits_per_rgb == util_bitcount blue_mask)).map SurfaceFormat.format
  if force_bgra8_unorm_first then
    match List.findIdx? (fun f => f == VkFormat.B8G8R8A8_UNORM) sorted with
    | some i =>
        (sorted.set i (sorted.getD 0 VkFormat.B8G8R8A8_UNORM)).set 0
          VkFormat.B8G8R8A8_UNORM
    | none => sorted
  else sorted

/-- Embedding of the per-slot state of struct x11_image (wsi_common_x11.c):
the fields the claims touch.  Region ids are Nat, with 0 playing the role
of XCB_NONE. -/
structure Image where
  busy : Bool
  present_queued : Bool
  serial : Nat
  pixmap : Nat
  update_area : Nat
  update_region : Nat
deriving DecidableEq

/-- Default slot, used for out-of-range list reads. -/
def dfltImage : Image :=
  { busy := false, present_queued := false, serial := 0, pixmap := 0,
    update_area := 0, update_region := 0 }

/-- Embedding of the swapchain state, struct x11_swapchain
(wsi_common_x11.c lines 985-1016).  The is_xwayland flag is the one of the
cached connection entry the chain talks to; sw is wsi device software
mode. -/
structure Chain where
  status : Int
  extent : Nat × Nat
  images : List Image
  send_sbc : Nat
  sent_image_count : Int
  last_present_msc : Nat
  copy_is_suboptimal : Bool
  has_present_queue : Bool
  has_acquire_queue : Bool
  present_queue : List Nat
  acquire_queue : List Nat
  present_mode : PresentMode
  window : Nat
  is_xwayland : Bool
  has_dri3_modifiers : Bool
  sw : Bool
  has_mit_shm : Bool
deriving DecidableEq

/-- In-place update of the element at an index of a list; the list is
unchanged when the index is out of range. -/
def listModify : List α → Nat → (α → α) → List α
  | [], _, _ => []
  | a :: l, 0, f => f a :: l
  | a :: l, n + 1, f => a :: listModify l n f

/-- The kind field of a Present COMPLETE_NOTIFY event. -/
inductive CompleteKind where
  | pixmap
  | notifyMsc
deriving DecidableEq

/-- The mode field of a Present COMPLETE_NOTIFY event. -/
inductive CompleteMode where
  | copy
  | flip
  | skip
  | suboptimalCopy
deriving DecidableEq

/-- The Present special events the swapchain receives. -/
inductive PresentEvent where
  | configureNotify (width height : Nat)
  | idleNotify (pixmap : Nat)
  | completeNotify (kind : CompleteKind) (mode : CompleteMode)
      (serial : Nat) (msc : Nat)
  | other
deriving DecidableEq

/-- Embedding of x11_handle_dri3_present_event (wsi_common_x11.c lines
1081-1158).  Returns the event result and the updated chain; the stored
status field is never written here, callers merge the result through
x11_swapchain_result. -/
def x11_handle_dri3_present_event (c : Chain) (e : PresentEvent) :
    Int × Chain :=
  match e with
  | .configureNotify w h =>
      if w ≠ c.extent.1 ∨ h ≠ c.extent.2 then (VK_SUBOPTIMAL_KHR, c)
      else (VK_SUCCESS, c)
  | .idleNotify pix =>
      match List.findIdx? (fun im => im.pixmap == pix) c.images with
      | some i =>
          let c1 := { c with
            images := listModify c.images i (fun im => { im with busy := false }),
            sent_image_count := c.sent_image_count - 1 }
          let c2 :=
            if c1.has_acquire_queue then
              { c1 with acquire_queue := c1.acquire_queue ++ [i] }
            else c1
          (VK_SUCCESS, c2)
      | none => (VK_SUCCESS, c)
  | .completeNotify kind mode serial msc =>
      let c1 :=
        if kind = CompleteKind.pixmap then
          { c with
            images := c.images.map (fun im =>
              if im.present_queued && im.serial == serial then
                { im with present_queued := false }
              else im),
            last_present_msc := msc }
        else c
      match mode with
      | .copy =>
          (if c1.copy_is_suboptimal then VK_SUBOPTIMAL_KHR else VK_SUCCESS, c1)
      | .flip => (VK_SUCCESS, { c1 with copy_is_suboptimal := true })
      | .skip => (VK_SUCCESS, c1)
      | .suboptimalCopy => (VK_SUBOPTIMAL_KHR, c1)
  | .other => (VK_SUCCESS, c)

/-- Merge a result into the chain through the latch and package a return
value of the acquire and event paths: reported result, updated chain,
optional image index. -/
def x11_acquire_result (c : Chain) (r : Int) (oi : Option Nat) :
    Int × Chain × Option Nat :=
  let p := x11_swapchain_result c.status r
  (p.2, { c with status := p.1 }, oi)

/-- Timeout classes distinguished by the acquire paths: UINT64_MAX,
zero, and a finite positive value. -/
inductive Timeout where
  | infinite
  | zero
  | finite
deriving DecidableEq

/-- Outcome of the poll(2) call on the connection file descriptor in one
iteration of x11_acquire_next_image_poll_x11: returned 0, returned -1, or
woke with data (carrying whether the recomputed remaining timeout is
zero). -/
inductive FdOutcome where
  | timedOut
  | errored
  | ready (timeoutExpired : Bool)
deriving DecidableEq

/-- Environment outcome of one iteration of the event-poll acquire loop:
a special event was delivered, the special-event channel returned null
(connection lost, blocking wait only), or no special event was pending
(with the file-descriptor outcome consulted when the timeout is finite). -/
inductive PollStep where
  | specialEvent (e : PresentEvent)
  | channelClosed
  | noEvent (fd : FdOutcome)
deriving DecidableEq

/-- The scan for a non-busy image at the top of each iteration of
x11_acquire_next_image_poll_x11 (wsi_common_x11.c lines
1174-1237).  The list of PollStep is the environment: what the connection
delivers at each iteration of the loop.  The result is none when the
environment list is exhausted (or describes an outcome the source call in
that mode cannot produce) before the loop returns. -/
def x11_acquire_scan (c : Chain) : Option (Int × Chain × Option Nat) :=
  match List.findIdx? (fun im => !im.busy) c.images with
  | some i =>
      let c1 := { c with
        images := listModify c.images i (fun im => { im with busy := true }) }
      some (x11_acquire_result c1 VK_SUCCESS (some i))
  | none => none

/-- Outcome of one iteration of the event-poll acquire loop: the loop
returns (with an answer, or none when the environment outcome is one the
source call in that mode cannot produce), or it continues with an updated
chain and timeout class. -/
inductive PollOut where
  | finished (res : Option (Int × Chain × Option Nat))
  | again (c : Chain) (t : Timeout)

/-- One iteration of the wait in x11_acquire_next_image_poll_x11 after the
busy-scan found nothing: consume the environment outcome for this
iteration. -/
def x11_acquire_poll_once (c : Chain) (t : Timeout) (step : PollStep) :
    PollOut :=
  match t, step with
  | .infinite, .channelClosed =>
      .finished (some (x11_acquire_result c VK_ERROR_SURFACE_LOST_KHR none))
  | .infinite, .noEvent _ => .finished none
  | .zero, .channelClosed => .finished none
  | .zero, .noEvent _ =>
      .finished (some (x11_acquire_result c VK_NOT_READY none))
  | .finite, .channelClosed => .finished none
  | .finite, .noEvent .timedOut =>
      .finished (some (x11_acquire_result c VK_TIMEOUT none))
  | .finite, .noEvent .errored =>
      .finished (some (x11_acquire_result c VK_ERROR_OUT_OF_DATE_KHR none))
  | .finite, .noEvent (.ready expired) =>
      .again c (if expired then .zero else .finite)
  | t0, .specialEvent e =>
      let he := x11_handle_dri3_present_event c e
      let res := x11_acquire_result he.2 he.1 none
      if res.1 < 0 then .finished (some res) else .again res.2.1 t0

/-- The loop of x11_acquire_next_image_poll_x11: scan, then consume one
environment step per iteration. -/
def x11_acquire_next_image_poll_x11 (c : Chain) (t : Timeout) :
    List PollStep → Option (Int × Chain × Option Nat)
  | [] => x11_acquire_scan c
  | step :: rest =>
    match x11_acquire_scan c with
    | some res => some res
    | none =>
        match x11_acquire_poll_once c t step with
        | .finished res => res
        | .again c2 t2 => x11_acquire_next_image_poll_x11 c2 t2 rest

/-- Embedding of x11_acquire_next_image_from_queue (wsi_common_x11.c lines
1243-1268).  pullResult and pullIdx are what wsi_queue_pull on the acquire
queue produced; the fence await is a no-op in the model. -/
def x11_acquire_next_image_from_queue (c : Chain) (pullResult : Int)
    (pullIdx : Nat) : Int × Chain × Option Nat :=
  if pullResult < 0 ∨ pullResult = VK_TIMEOUT then
    x11_acquire_result c pullResult none
  else if c.status < 0 then (c.status, c, none)
  else (c.status, c, some pullIdx)

/-- Embedding of the software (no MIT-SHM) branch of
x11_acquire_next_image (wsi_common_x11.c lines 1431-1454).  geom is the
get_geometry reply, none when the server returned an error. -/
def x11_acquire_next_image_sw (c : Chain) (geom : Option (Nat × Nat)) :
    Int × Chain × Option Nat :=
  match List.findIdx? (fun im => !im.busy) c.images with
  | some i =>
      let c1 := { c with
        images := listModify c.images i (fun im => { im with busy := true }) }
      let res :=
        match geom with
        | some (w, h) =>
            if c.extent.1 ≠ w ∨ c.extent.2 ≠ h then VK_SUBOPTIMAL_KHR
            else VK_SUCCESS
        | none => VK_ERROR_SURFACE_LOST_KHR
      (res, c1, some i)
  | none => (VK_NOT_READY, c, none)

/-- Environment of one acquire call: the geometry reply used by the
software path, the wsi_queue_pull outcome used by the acquire-queue path,
and the loop outcomes used by the event-poll path. -/
structure AcquireEnv where
  geom : Option (Nat × Nat)
  pullResult : Int
  pullIdx : Nat
  pollSteps : List PollStep
deriving DecidableEq

/-- Embedding of x11_acquire_next_image (wsi_common_x11.c lines
1419-1461): the status guard, then dispatch to the software, queue or
poll path. -/
def x11_acquire_next_image (c : Chain) (t : Timeout) (env : AcquireEnv) :
    Option (Int × Chain × Option Nat) :=
  if c.status < 0 then some (c.status, c, none)
  else if c.sw && !c.has_mit_shm then
    some (x11_acquire_next_image_sw c env.geom)
  else if c.has_acquire_queue then
    some (x11_acquire_next_image_from_queue c env.pullResult env.pullIdx)
  else x11_acquire_next_image_poll_x11 c t env.pollSteps

/-- A damage rectangle of a present call (VkRectLayerKHR without the
layer, which the source asserts to be 0). -/
structure Rect where
  x : Int
  y : Int
  width : Nat
  height : Nat
deriving DecidableEq

/-- Requests the modelled operations issue on the X connection. -/
inductive Op where
  | setRegion (region : Nat) (rects : List Rect)
  | presentPixmap (window pixmap serial update_area options target_msc : Nat)
  | putImage (image_index : Nat)
deriving DecidableEq

/-- Environment of one present-primitive call: whether the connection
registry lookup failed, the special events pending on the channel when the
primitive drains it, and whether xcb_request_check on present_pixmap
reported an error. -/
structure PresentEnv where
  connLost : Bool
  pendingEvents : List PresentEvent
  presentError : Bool
deriving DecidableEq

/-- The drain loop at the top of x11_present_to_x11_dri3 (wsi_common_x11.c
lines 1306-1314): handle and latch every pending special event, stopping
with the reported value when a latched result is negative. -/
def drainSpecialEvents : Chain → List PresentEvent → Chain × Option Int
  | c, [] => (c, none)
  | c, e :: rest =>
      let he := x11_handle_dri3_present_event c e
      let p := x11_swapchain_result he.2.status he.1
      let c2 := { he.2 with status := p.1 }
      if p.2 < 0 then (c2, some p.2) else drainSpecialEvents c2 rest

/-- XCB_PRESENT_OPTION_ASYNC. -/
def XCB_PRESENT_OPTION_ASYNC : Nat := 1

/-- XCB_PRESENT_OPTION_SUBOPTIMAL. -/
def XCB_PRESENT_OPTION_SUBOPTIMAL : Nat := 8

/-- Embedding of x11_present_to_x11_dri3 (wsi_common_x11.c lines
1273-1348).  Returns the reported result, the updated chain and the
requests issued.  send_sbc is a uint64 and the per-image serial its uint32
truncation, exactly as in the source. -/
def x11_present_to_x11_dri3 (c : Chain) (image_index : Nat)
    (target_msc : Nat) (env : PresentEnv) : Int × Chain × List Op :=
  if env.connLost then (VK_ERROR_OUT_OF_HOST_MEMORY, c, [])
  else
    let options :=
      (if c.present_mode = PresentMode.immediate ∨
          (c.present_mode = PresentMode.mailbox ∧ c.is_xwayland) ∨
          c.present_mode = PresentMode.fifoRelaxed then
        XCB_PRESENT_OPTION_ASYNC else 0) +
      (if c.has_dri3_modifiers then XCB_PRESENT_OPTION_SUBOPTIMAL else 0)
    match drainSpecialEvents c env.pendingEvents with
    | (c1, some r) => (r, c1, [])
    | (c1, none) =>
      let sbc := (c1.send_sbc + 1) % 2 ^ 64
      let serial := sbc % 2 ^ 32
      let c2 := { c1 with
        send_sbc := sbc,
        sent_image_count := c1.sent_image_count + 1,
        images := listModify c1.images image_index (fun im =>
          { im with present_queued := true, serial := serial }) }
      let im := c2.images.getD image_index dfltImage
      let ops := [Op.presentPixmap c2.window im.pixmap serial im.update_area
        options target_msc]
      if env.presentError then
        let p := x11_swapchain_result c2.status VK_ERROR_SURFACE_LOST_KHR
        (p.2, { c2 with status := p.1 }, ops)
      else
        let p := x11_swapchain_result c2.status VK_SUCCESS
        (p.2, { c2 with status := p.1 }, ops)

/-- Embedding of x11_present_to_x11_sw (wsi_common_x11.c lines 1353-1399):
put_image transfer, slot marked non-busy immediately, success latched. -/
def x11_present_to_x11_sw (c : Chain) (image_index : Nat) :
    Int × Chain × List Op :=
  let c1 := { c with
    images := listModify c.images image_index (fun im =>
      { im with busy := false }) }
  let p := x11_swapchain_result c1.status VK_SUCCESS
  (p.2, { c1 with status := p.1 }, [Op.putImage image_index])

/-- Embedding of x11_present_to_x11 (wsi_common_x11.c lines 1404-1411). -/
def x11_present_to_x11 (c : Chain) (image_index : Nat) (target_msc : Nat)
    (env : PresentEnv) : Int × Chain × List Op :=
  if c.sw && !c.has_mit_shm then x11_present_to_x11_sw c image_index
  else x11_present_to_x11_dri3 c image_index target_msc env

/-- MAX_DAMAGE_RECTS (wsi_common_x11.c line 1463). -/
def MAX_DAMAGE_RECTS : Nat := 64

/-- Embedding of x11_queue_present (wsi_common_x11.c lines 1472-1509):
status guard, damage handling, busy marking, then either a push on the
present queue or the inline present. -/
def x11_queue_present (c : Chain) (image_index : Nat)
    (damage : Option (List Rect)) (env : PresentEnv) : Int × Chain × List Op :=
  if c.status < 0 then (c.status, c, [])
  else
    let dmgOk :=
      match damage with
      | some rects =>
          decide (0 < rects.length) && decide (rects.length ≤ MAX_DAMAGE_RECTS)
      | none => false
    let update_area :=
      if dmgOk then (c.images.getD image_index dfltImage).update_region else 0
    let ops0 : List Op :=
      if dmgOk then [Op.setRegion update_area (damage.getD [])] else []
    let c1 := { c with
      images := listModify c.images image_index (fun im =>
        { im with update_area := update_area, busy := true }) }
    if c1.has_present_queue then
      (c1.status, { c1 with present_queue := c1.present_queue ++ [image_index] },
        ops0)
    else
      let r := x11_present_to_x11 c1 image_index 0 env
      (r.1, r.2.1, ops0 ++ r.2.2)

/-- The device fields consulted by the connection factory. -/
structure WsiDevice where
  sw : Bool
  has_import_memory_host : Bool
  debug_noshm : Bool
deriving DecidableEq

/-- The server replies consumed by wsi_x11_connection_create.  A query
reply is an Option Bool: none models a null reply (connection error), some
b a reply whose present flag is b.  The version and probe fields stand for
the follow-up round-trips the factory makes. -/
structure ConnReplies where
  dri3 : Option Bool
  present : Option Bool
  randr : Option Bool
  amd : Option Bool
  nv : Option Bool
  xfixes : Option Bool
  xwl : Option Bool
  shm : Bool
  dri3_ver_ge_1_2 : Bool
  present_ver_ge_1_2 : Bool
  xfixes_major_ge_2 : Bool
  shm_shared_pixmaps : Bool
  shm_detach_error : Option Nat
  randr_ver_ge_1_3 : Bool
  first_output_starts_xwayland : Option Bool
deriving DecidableEq

/-- The X error code BadRequest. -/
def BadRequest : Nat := 1

/-- Embedding of wsi_x11_detect_xwayland (wsi_common_x11.c lines
144-198): the XWAYLAND extension, with a fallback through RANDR at least
1.3 and the name of the first output. -/
def wsi_x11_detect_xwayland (r : ConnReplies) : Bool :=
  match r.xwl with
  | some true => true
  | _ =>
    match r.randr with
    | some true =>
        if r.randr_ver_ge_1_3 then
          match r.first_output_starts_xwayland with
          | some b => b
          | none => false
        else false
    | _ => false

/-- The connection entry produced by the factory, struct
wsi_x11_connection. -/
structure ConnEntry where
  has_dri3 : Bool
  has_present : Bool
  has_xfixes : Bool
  is_xwayland : Bool
  has_dri3_modifiers : Bool
  is_proprietary_x11 : Bool
  has_mit_shm : Bool
deriving DecidableEq

/-- Embedding of wsi_x11_connection_create (wsi_common_x11.c lines
200-352), HAVE_DRI3_MODIFIERS build.  allocFail models vk_alloc returning
null.  The factory bails out with none exactly when allocation fails or
one of the DRI3, Present or XFIXES query replies is null; an extension
that is merely absent yields an entry whose flag is false. -/
def wsi_x11_connection_create (dev : WsiDevice) (r : ConnReplies)
    (allocFail : Bool) : Option ConnEntry :=
  let wants_shm := dev.sw && !dev.debug_noshm && dev.has_import_memory_host
  if allocFail then none
  else
    match r.dri3, r.present, r.xfixes with
    | some d, some p, some x =>
      let has_dri3 := d
      let has_dri3_v1_2 := has_dri3 && r.dri3_ver_ge_1_2
      let has_present := p
      let has_present_v1_2 := has_present && r.present_ver_ge_1_2
      let has_xfixes := x && r.xfixes_major_ge_2
      let is_xwayland := wsi_x11_detect_xwayland r
      let has_dri3_modifiers := has_dri3_v1_2 && has_present_v1_2
      let is_prop :=
        (match r.amd with | some true => true | _ => false) ||
        (match r.nv with | some true => true | _ => false)
      let has_mit_shm :=
        if has_dri3 && has_present && wants_shm then
          if r.shm_shared_pixmaps then
            match r.shm_detach_error with
            | some code => decide (code ≠ BadRequest)
            | none => false
          else false
        else false
      some { has_dri3 := has_dri3, has_present := has_present,
             has_xfixes := has_xfixes, is_xwayland := is_xwayland,
             has_dri3_modifiers := has_dri3_modifiers,
             is_proprietary_x11 := is_prop, has_mit_shm := has_mit_shm }
    | _, _, _ => none

/-!  Theorems. -/

/-- Claim C4, counterexample: the claim says the fence-wait predicate
returns true in mailbox mode for every connection state, but on an
XWayland connection with the xwaylandWaitReady option disabled it returns
false. -/
theorem c4_mailbox_not_always : x11_needs_wait_for_fences false true
    PresentMode.mailbox ≠ true := by
  decide

/-- Claim C4, amended: the fence-wait predicate returns true in mailbox
mode unless the connection is XWayland with xwaylandWaitReady disabled,
returns is_xwayland AND xwaylandWaitReady in immediate mode, and returns
false in fifo and fifo-relaxed modes. -/
theorem c4_fence_wait_policy : ∀ (waitReady xw : Bool),
    x11_needs_wait_for_fences waitReady xw PresentMode.mailbox
      = (!xw || waitReady) ∧
    x11_needs_wait_for_fences waitReady xw PresentMode.immediate
      = (xw && waitReady) ∧
    x11_needs_wait_for_fences waitReady xw PresentMode.fifo = false ∧
    x11_needs_wait_for_fences waitReady xw PresentMode.fifoRelaxed = false := by
  decide

/-- Claim C2, counterexample: merging VK_TIMEOUT into a latch whose stored
status is negative reports the stored negative status, not the new
transient result as the claim states. -/
theorem c2_transient_reports_stored_negative :
    x11_swapchain_result VK_ERROR_OUT_OF_DATE_KHR VK_TIMEOUT
      = (VK_ERROR_OUT_OF_DATE_KHR, VK_ERROR_OUT_OF_DATE_KHR) ∧
    VK_ERROR_OUT_OF_DATE_KHR ≠ VK_TIMEOUT := by
  decide

/-- Claim C2, amended: merging VK_TIMEOUT or VK_NOT_READY while the stored
status is negative keeps the stored status and reports that stored
negative value; while the stored status is SUCCESS or SUBOPTIMAL, the
transient result is reported and the stored status is not written. -/
theorem c2_transient_latch (s r : Int)
    (hr : r = VK_TIMEOUT ∨ r = VK_NOT_READY) :
    (s < 0 → x11_swapchain_result s r = (s, s)) ∧
    (s = VK_SUCCESS ∨ s = VK_SUBOPTIMAL_KHR →
      x11_swapchain_result s r = (s, r)) := by
  constructor
  · intro hs
    unfold x11_swapchain_result
    rw [if_pos hs]
  · intro hs
    have hs0 : ¬s < 0 := by rcases hs with rfl | rfl <;> decide
    have hr0 : ¬r < 0 := by rcases hr with rfl | rfl <;> decide
    unfold x11_swapchain_result
    rw [if_neg hs0, if_neg hr0, if_pos hr]

/-- Witness for c2_transient_latch at concrete inputs. -/
theorem c2_transient_latch_witness :
    (VK_TIMEOUT = VK_TIMEOUT ∨ VK_TIMEOUT = VK_NOT_READY) ∧
    x11_swapchain_result VK_SUBOPTIMAL_KHR VK_TIMEOUT
      = (VK_SUBOPTIMAL_KHR, VK_TIMEOUT) ∧
    x11_swapchain_result (-1) VK_NOT_READY = (-1, -1) :=
  ⟨Or.inl rfl,
   (c2_transient_latch VK_SUBOPTIMAL_KHR VK_TIMEOUT (Or.inl rfl)).2
     (Or.inr rfl),
   (c2_transient_latch (-1) VK_NOT_READY (Or.inr rfl)).1 (by decide)⟩

/-- A device record for the connection-factory counterexample. -/
def c5Dev : WsiDevice :=
  { sw := false, has_import_memory_host := false, debug_noshm := false }

/-- Replies of a server that answers every extension query but lacks the
DRI3 extension (its query reply carries present = 0). -/
def c5Replies : ConnReplies :=
  { dri3 := some false, present := some true, randr := some false,
    amd := some false, nv := some false, xfixes := some true,
    xwl := some false, shm := false, dri3_ver_ge_1_2 := false,
    present_ver_ge_1_2 := false, xfixes_major_ge_2 := true,
    shm_shared_pixmaps := false, shm_detach_error := none,
    randr_ver_ge_1_3 := false, first_output_starts_xwayland := none }

/-- Claim C5, counterexample: on a connection whose DRI3 extension is
absent (the query reply is delivered with present = 0) the factory still
returns an entry, with the has_dri3 flag false, while the claim says it
returns none. -/
theorem c5_absent_dri3_still_entry :
    (wsi_x11_connection_create c5Dev c5Replies false).isSome = true ∧
    c5Replies.dri3 = some false ∧
    (wsi_x11_connection_create c5Dev c5Replies false).map ConnEntry.has_dri3
      = some false := by
  decide

/-- Claim C5, amended: the factory returns none exactly when allocation
fails or one of the DRI3, Present or XFIXES query replies is null (a
connection error); an extension that is merely absent yields an entry
whose availability flag is false. -/
theorem c5_factory_none_iff (dev : WsiDevice) (r : ConnReplies)
    (allocFail : Bool) :
    wsi_x11_connection_create dev r allocFail = none ↔
      allocFail = true ∨ r.dri3 = none ∨ r.present = none ∨
      r.xfixes = none := by
  cases allocFail
  · cases hd : r.dri3 <;> cases hp : r.present <;> cases hx : r.xfixes <;>
      simp [wsi_x11_connection_create, hd, hp, hx]
  · simp [wsi_x11_connection_create]

/-- A small concrete swapchain used to instantiate theorems. -/
def baseChain : Chain :=
  { status := VK_SUCCESS, extent := (100, 100), images := [dfltImage],
    send_sbc := 0, sent_image_count := 0, last_present_msc := 0,
    copy_is_suboptimal := false, has_present_queue := false,
    has_acquire_queue := false, present_queue := [], acquire_queue := [],
    present_mode := PresentMode.fifo, window := 1, is_xwayland := false,
    has_dri3_modifiers := false, sw := false, has_mit_shm := false }

/-- The same chain after its status latched a negative result. -/
def negChain : Chain := { baseChain with status := VK_ERROR_OUT_OF_DATE_KHR }

/-- Claim C1: the latch is sticky.  Once the stored status is negative,
every later merge keeps it and reports it, also over whole sequences; once
it is VK_SUBOPTIMAL_KHR, merging any non-negative result keeps it
SUBOPTIMAL; and acquire and present calls on a chain with a negative
stored status return that value unchanged. -/
theorem c1_sticky_status (s r : Int) (rs : List Int) (c : Chain)
    (t : Timeout) (env : AcquireEnv) (i : Nat) (dmg : Option (List Rect))
    (penv : PresentEnv) :
    (s < 0 → x11_swapchain_result s r = (s, s)) ∧
    (s < 0 → statusFold s rs = s) ∧
    (s = VK_SUBOPTIMAL_KHR → ¬r < 0 →
      (x11_swapchain_result s r).1 = VK_SUBOPTIMAL_KHR) ∧
    (c.status < 0 →
      x11_acquire_next_image c t env = some (c.status, c, none) ∧
      x11_queue_present c i dmg penv = (c.status, c, [])) := by
  refine ⟨?_, ?_, ?_, ?_⟩
  · intro hs
    unfold x11_swapchain_result
    rw [if_pos hs]
  · intro hs
    induction rs with
    | nil => rfl
    | cons a l ih =>
        unfold statusFold
        rw [List.foldl_cons]
        have ha : (x11_swapchain_result s a).1 = s := by
          unfold x11_swapchain_result
          rw [if_pos hs]
        rw [ha]
        exact ih
  · intro hs hr
    subst hs
    unfold x11_swapchain_result
    rw [if_neg (by decide), if_neg hr]
    split_ifs with h1 h2
    · rfl
    · exact h2
    · rfl
  · intro hc
    constructor
    · unfold x11_acquire_next_image
      rw [if_pos hc]
    · unfold x11_queue_present
      rw [if_pos hc]

/-- Witness for c1_sticky_status at concrete inputs. -/
theorem c1_sticky_status_witness :
    statusFold (-1000000000) [VK_SUBOPTIMAL_KHR, VK_TIMEOUT, VK_SUCCESS]
      = -1000000000 ∧
    (x11_swapchain_result VK_SUBOPTIMAL_KHR VK_SUCCESS).1
      = VK_SUBOPTIMAL_KHR ∧
    x11_acquire_next_image negChain Timeout.zero ⟨none, 0, 0, []⟩
      = some (negChain.status, negChain, none) ∧
    x11_queue_present negChain 0 none ⟨false, [], false⟩
      = (negChain.status, negChain, []) :=
  ⟨(c1_sticky_status (-1000000000) 0 [VK_SUBOPTIMAL_KHR, VK_TIMEOUT, VK_SUCCESS]
      baseChain Timeout.zero ⟨none, 0, 0, []⟩ 0 none ⟨false, [], false⟩).2.1
      (by decide),
   (c1_sticky_status VK_SUBOPTIMAL_KHR VK_SUCCESS [] baseChain Timeout.zero
      ⟨none, 0, 0, []⟩ 0 none ⟨false, [], false⟩).2.2.1 rfl (by decide),
   ((c1_sticky_status 0 0 [] negChain Timeout.zero ⟨none, 0, 0, []⟩ 0 none
      ⟨false, [], false⟩).2.2.2 (by decide)).1,
   ((c1_sticky_status 0 0 [] negChain Timeout.zero ⟨none, 0, 0, []⟩ 0 none
      ⟨false, [], false⟩).2.2.2 (by decide)).2⟩

/-- Claim C6: a CONFIGURE_NOTIFY whose size differs from the locked extent
yields VK_SUBOPTIMAL_KHR and leaves the chain (extent and image ring)
untouched; a matching one yields success and changes nothing; and merging
SUBOPTIMAL into a non-negative stored status makes the next call report
SUBOPTIMAL. -/
theorem c6_configure_notify (c : Chain) (w h : Nat) (s : Int) :
    x11_handle_dri3_present_event c (.configureNotify w h) =
      (if w ≠ c.extent.1 ∨ h ≠ c.extent.2 then VK_SUBOPTIMAL_KHR
       else VK_SUCCESS, c) ∧
    (0 ≤ s → x11_swapchain_result s VK_SUBOPTIMAL_KHR
      = (VK_SUBOPTIMAL_KHR, VK_SUBOPTIMAL_KHR)) := by
  constructor
  · by_cases hc : w ≠ c.extent.1 ∨ h ≠ c.extent.2 <;>
      simp [x11_handle_dri3_present_event, hc]
  · intro hs
    unfold x11_swapchain_result
    rw [if_neg (not_lt.mpr hs), if_neg (by decide), if_neg (by decide),
      if_pos rfl]

/-- Witness for c6_configure_notify at concrete inputs. -/
theorem c6_configure_notify_witness :
    x11_swapchain_result 0 VK_SUBOPTIMAL_KHR
      = (VK_SUBOPTIMAL_KHR, VK_SUBOPTIMAL_KHR) :=
  (c6_configure_notify baseChain 0 0 0).2 (by decide)

/-- Claim C8: the resolved image count respects strict_imageCount, else
is raised to 5 under the fence-wait policy, else to the min-image-count
floor (override if nonzero, else 3) under ensure_minImageCount, else is
exactly the requested count. -/
theorem c8_image_count (req : Nat) (strict ensure : Bool) (override : Nat)
    (waitReady xw : Bool) (mode : PresentMode) :
    (strict = true →
      x11_swapchain_image_count req strict ensure override waitReady xw mode
        = req) ∧
    (strict = false → x11_needs_wait_for_fences waitReady xw mode = true →
      x11_swapchain_image_count req strict ensure override waitReady xw mode
        = max req 5) ∧
    (strict = false → x11_needs_wait_for_fences waitReady xw mode = false →
      ensure = true →
      x11_swapchain_image_count req strict ensure override waitReady xw mode
        = max req (if override ≠ 0 then override else 3)) ∧
    (strict = false → x11_needs_wait_for_fences waitReady xw mode = false →
      ensure = false →
      x11_swapchain_image_count req strict ensure override waitReady xw mode
        = req) := by
  refine ⟨?_, ?_, ?_, ?_⟩
  · intro hs
    simp [x11_swapchain_image_count, hs]
  · intro hs hw
    simp [x11_swapchain_image_count, hs, hw]
  · intro hs hw he
    simp [x11_swapchain_image_count, x11_get_min_image_count, hs, hw, he]
  · intro hs hw he
    simp [x11_swapchain_image_count, hs, hw, he]

/-- Witness for c8_image_count at concrete inputs: each of the four
resolution cases instantiated. -/
theorem c8_image_count_witness :
    x11_swapchain_image_count 2 true true 7 false false PresentMode.fifo
      = 2 ∧
    x11_swapchain_image_count 2 false false 0 true false PresentMode.mailbox
      = max 2 5 ∧
    x11_swapchain_image_count 2 false true 4 false false PresentMode.fifo
      = max 2 (if (4 : Nat) ≠ 0 then 4 else 3) ∧
    x11_swapchain_image_count 9 false false 4 false false PresentMode.fifo
      = 9 :=
  ⟨(c8_image_count 2 true true 7 false false PresentMode.fifo).1 rfl,
   (c8_image_count 2 false false 0 true false PresentMode.mailbox).2.1 rfl
     (by decide),
   (c8_image_count 2 false true 4 false false PresentMode.fifo).2.2.1 rfl
     (by decide) rfl,
   (c8_image_count 9 false false 4 false false PresentMode.fifo).2.2.2 rfl
     (by decide) rfl⟩

/-- Whether a request is an XFIXES set-region request. -/
def Op.isSetRegion : Op → Bool
  | .setRegion _ _ => true
  | _ => false

/-- The present primitive issues no set-region request. -/
theorem x11_present_to_x11_no_region (c : Chain) (i msc : Nat)
    (env : PresentEnv) :
    ((x11_present_to_x11 c i msc env).2.2.all
      (fun op => !op.isSetRegion)) = true := by
  unfold x11_present_to_x11
  split
  · simp [x11_present_to_x11_sw, Op.isSetRegion]
  · unfold x11_present_to_x11_dri3
    split
    · rfl
    · dsimp only
      rcases hdr : drainSpecialEvents c env.pendingEvents with ⟨c1, r⟩
      rcases r with _ | r
      · by_cases hp : env.presentError = true <;> simp [hp, Op.isSetRegion]
      · rfl

/-- A present with no damage issues no set-region request, in any mode and
environment. -/
theorem x11_queue_present_none_no_region (c : Chain) (i : Nat)
    (env : PresentEnv) :
    ((x11_queue_present c i none env).2.2.all
      (fun op => !op.isSetRegion)) = true := by
  unfold x11_queue_present
  split
  · rfl
  · dsimp only
    split
    · rfl
    · simp only [Bool.false_eq_true, if_false, List.nil_append]
      exact x11_present_to_x11_no_region _ i 0 env

/-- Claim C10: a present whose damage has zero rectangles or more than 64
rectangles behaves exactly like a full-image present with no damage: the
same result, the same chain state (the slot update area is 0, meaning the
whole image), the same requests, hence no set-region request and no
failure caused by the limit. -/
theorem c10_damage_ignored (c : Chain) (i : Nat) (rects : List Rect)
    (env : PresentEnv)
    (h : rects.length = 0 ∨ MAX_DAMAGE_RECTS < rects.length) :
    x11_queue_present c i (some rects) env = x11_queue_present c i none env ∧
    ((x11_queue_present c i (some rects) env).2.2.all
      (fun op => !op.isSetRegion)) = true := by
  have hd : (decide (0 < rects.length) &&
      decide (rects.length ≤ MAX_DAMAGE_RECTS)) = false := by
    rcases h with h | h
    · simp [h]
    · have : decide (rects.length ≤ MAX_DAMAGE_RECTS) = false :=
        decide_eq_false (by omega)
      simp [this]
  have heq : x11_queue_present c i (some rects) env
      = x11_queue_present c i none env := by
    unfold x11_queue_present
    dsimp only
    rw [hd]
    simp only [Bool.false_eq_true, if_false]
  exact ⟨heq, heq ▸ x11_queue_present_none_no_region c i env⟩

/-- Witness for c10_damage_ignored at a concrete 65-rectangle damage. -/
theorem c10_damage_ignored_witness :
    ((List.replicate 65 (⟨0, 0, 1, 1⟩ : Rect)).length = 0 ∨
      MAX_DAMAGE_RECTS < (List.replicate 65 (⟨0, 0, 1, 1⟩ : Rect)).length) ∧
    x11_queue_present baseChain 0
        (some (List.replicate 65 (⟨0, 0, 1, 1⟩ : Rect)))
        ⟨false, [], false⟩
      = x11_queue_present baseChain 0 none ⟨false, [], false⟩ :=
  ⟨Or.inr (by decide),
   (c10_damage_ignored baseChain 0 (List.replicate 65 ⟨0, 0, 1, 1⟩)
     ⟨false, [], false⟩ (Or.inr (by decide))).1⟩

/-- Claim C9: the surface-format query returns exactly the table members
whose bits-per-channel equals the popcount of each of the red, green and
blue masks, in table order, and force_bgra8_unorm_first swaps
B8G8R8A8_UNORM into position 0 when it is among the kept formats. -/
theorem c9_surface_formats (rm gm bm : Nat) (force : Bool) :
    get_sorted_vk_formats rm gm bm force =
      if 8 = util_bitcount rm ∧ 8 = util_bitcount gm ∧ 8 = util_bitcount bm
      then
        (if force then [VkFormat.B8G8R8A8_UNORM, VkFormat.B8G8R8A8_SRGB]
         else [VkFormat.B8G8R8A8_SRGB, VkFormat.B8G8R8A8_UNORM])
      else if 10 = util_bitcount rm ∧ 10 = util_bitcount gm ∧
          10 = util_bitcount bm then
        [VkFormat.A2R10G10B10_UNORM_PACK32]
      else [] := by
  unfold get_sorted_vk_formats
  generalize util_bitcount rm = br
  generalize util_bitcount gm = bg
  generalize util_bitcount bm = bb
  by_cases hA : 8 = br ∧ 8 = bg ∧ 8 = bb
  · obtain ⟨h1, h2, h3⟩ := hA
    subst h1
    subst h2
    subst h3
    cases force <;> decide
  · by_cases hB : 10 = br ∧ 10 = bg ∧ 10 = bb
    · obtain ⟨h1, h2, h3⟩ := hB
      subst h1
      subst h2
      subst h3
      cases force <;> decide
    · rw [if_neg hA, if_neg hB]
      have e8 : ((8 == br && 8 == bg) && 8 == bb) = false := by
        cases h1 : ((8 : Nat) == br) <;> cases h2 : ((8 : Nat) == bg) <;>
          cases h3 : ((8 : Nat) == bb) <;> simp_all [beq_iff_eq]
      have e10 : ((10 == br && 10 == bg) && 10 == bb) = false := by
        cases h1 : ((10 : Nat) == br) <;> cases h2 : ((10 : Nat) == bg) <;>
          cases h3 : ((10 : Nat) == bb) <;> simp_all [beq_iff_eq]
      simp [formats, List.filter, e8, e10, List.findIdx?]

/-- When the latch reports a negative value, that value is also the new
stored status. -/
theorem x11_swapchain_result_neg (s r : Int)
    (h : (x11_swapchain_result s r).2 < 0) :
    (x11_swapchain_result s r).1 = (x11_swapchain_result s r).2 := by
  unfold x11_swapchain_result at h ⊢
  split_ifs at h ⊢ <;>
    first
    | rfl
    | (simp only [VK_TIMEOUT, VK_NOT_READY, VK_SUBOPTIMAL_KHR] at *; omega)

/-- Packaging of x11_swapchain_result_neg for the acquire paths. -/
theorem x11_acquire_result_neg (c : Chain) (r : Int) (oi : Option Nat)
    (h : (x11_acquire_result c r oi).1 < 0) :
    (x11_acquire_result c r oi).2.1.status = (x11_acquire_result c r oi).1 := by
  unfold x11_acquire_result at h ⊢
  exact x11_swapchain_result_neg c.status r h

/-- A negative result returned by the busy-scan has been recorded in the
stored status. -/
theorem x11_acquire_scan_neg (c : Chain) (r : Int) (c2 : Chain)
    (oi : Option Nat) (h : x11_acquire_scan c = some (r, c2, oi))
    (hr : r < 0) : c2.status = r := by
  unfold x11_acquire_scan at h
  rcases hf : List.findIdx? (fun im => !im.busy) c.images with _ | i <;>
    rw [hf] at h
  · exact absurd h (by simp)
  · injection h with h
    have hs := x11_acquire_result_neg _ VK_SUCCESS (some i)
      (by rw [h]; exact hr)
    rw [h] at hs
    exact hs

/-- A negative answer of one poll iteration has been recorded in the
stored status. -/
theorem x11_acquire_poll_once_neg (c : Chain) (t : Timeout)
    (step : PollStep) (r : Int) (c2 : Chain) (oi : Option Nat)
    (h : x11_acquire_poll_once c t step = .finished (some (r, c2, oi)))
    (hr : r < 0) : c2.status = r := by
  unfold x11_acquire_poll_once at h
  cases t <;> cases step <;> dsimp only at h
  case infinite.specialEvent e =>
    split at h
    · injection h with h
      injection h with h
      have hs := x11_acquire_result_neg _ _ _ (by rw [h]; exact hr)
      rw [h] at hs
      exact hs
    · exact absurd h (by simp)
  case infinite.channelClosed =>
    injection h with h
    injection h with h
    have hs := x11_acquire_result_neg _ _ _ (by rw [h]; exact hr)
    rw [h] at hs
    exact hs
  case infinite.noEvent fd => exact absurd h (by simp)
  case zero.specialEvent e =>
    split at h
    · injection h with h
      injection h with h
      have hs := x11_acquire_result_neg _ _ _ (by rw [h]; exact hr)
      rw [h] at hs
      exact hs
    · exact absurd h (by simp)
  case zero.channelClosed => exact absurd h (by simp)
  case zero.noEvent fd =>
    injection h with h
    injection h with h
    have hs := x11_acquire_result_neg _ _ _ (by rw [h]; exact hr)
    rw [h] at hs
    exact hs
  case finite.specialEvent e =>
    split at h
    · injection h with h
      injection h with h
      have hs := x11_acquire_result_neg _ _ _ (by rw [h]; exact hr)
      rw [h] at hs
      exact hs
    · exact absurd h (by simp)
  case finite.channelClosed => exact absurd h (by simp)
  case finite.noEvent fd =>
    cases fd <;> dsimp only at h
    case timedOut =>
      injection h with h
      injection h with h
      have hs := x11_acquire_result_neg _ _ _ (by rw [h]; exact hr)
      rw [h] at hs
      exact hs
    case errored =>
      injection h with h
      injection h with h
      have hs := x11_acquire_result_neg _ _ _ (by rw [h]; exact hr)
      rw [h] at hs
      exact hs
    case ready expired => exact absurd h (by simp)

/-- Any negative result returned by the event-poll acquire path has been
recorded in the stored status. -/
theorem x11_acquire_poll_neg_recorded :
    ∀ (steps : List PollStep) (c : Chain) (t : Timeout) (r : Int)
      (c2 : Chain) (oi : Option Nat),
      x11_acquire_next_image_poll_x11 c t steps = some (r, c2, oi) →
      r < 0 → c2.status = r := by
  intro steps
  induction steps with
  | nil =>
      intro c t r c2 oi h hr
      exact x11_acquire_scan_neg c r c2 oi h hr
  | cons step rest ih =>
      intro c t r c2 oi h hr
      have hcons : x11_acquire_next_image_poll_x11 c t (step :: rest) =
          (match x11_acquire_scan c with
           | some res => some res
           | none =>
               match x11_acquire_poll_once c t step with
               | .finished res => res
               | .again c3 t2 =>
                   x11_acquire_next_image_poll_x11 c3 t2 rest) := rfl
      rw [hcons] at h
      rcases hscan : x11_acquire_scan c with _ | res <;> rw [hscan] at h <;>
        dsimp only at h
      · rcases honce : x11_acquire_poll_once c t step with res2 | ⟨c3, t2⟩ <;>
          rw [honce] at h <;> dsimp only at h
        · exact x11_acquire_poll_once_neg c t step r c2 oi
            (by rw [honce, h]) hr
        · exact ih _ _ _ _ _ h hr
      · injection h with h
        exact x11_acquire_scan_neg c r c2 oi (h ▸ hscan) hr

/-- A software-presentation swapchain without MIT-SHM. -/
def swChain : Chain := { baseChain with sw := true }

/-- Claim C3, counterexample: on a software (no MIT-SHM) swapchain, an
acquire that observes a changed window geometry returns VK_SUBOPTIMAL_KHR
to the caller while the stored sticky status stays VK_SUCCESS: the result
is not merged through the status latch. -/
theorem c3_sw_acquire_bypasses_latch :
    (x11_acquire_next_image swChain Timeout.zero
        ⟨some (101, 100), 0, 0, []⟩).map (fun x => (x.1, x.2.1.status))
      = some (VK_SUBOPTIMAL_KHR, VK_SUCCESS) ∧
    VK_SUCCESS ≠ VK_SUBOPTIMAL_KHR := by
  decide

/-- Claim C3, amended: results of the DRI3 acquire paths (the acquire
queue and the event-poll loop) are funnelled through the status latch, so
any negative result they return is recorded in the sticky status; but on a
software (no MIT-SHM) swapchain the acquire path returns its result
directly and never writes the status field. -/
theorem c3_acquire_latch_scope (c : Chain) (t : Timeout) (env : AcquireEnv) :
    (c.sw = true → c.has_mit_shm = false →
      (x11_acquire_next_image c t env).map (fun x => x.2.1.status)
        = some c.status) ∧
    (¬(c.sw = true ∧ c.has_mit_shm = false) →
      ∀ r c2 oi, x11_acquire_next_image c t env = some (r, c2, oi) →
        r < 0 → c2.status = r) := by
  constructor
  · intro hsw hshm
    unfold x11_acquire_next_image
    by_cases h0 : c.status < 0
    · rw [if_pos h0]
      rfl
    · rw [if_neg h0, if_pos (by rw [hsw, hshm]; rfl)]
      unfold x11_acquire_next_image_sw
      rcases hf : List.findIdx? (fun im => !im.busy) c.images with _ | i <;>
        rw [hf]
      · rfl
      · rcases hg : env.geom with _ | ⟨w, h⟩ <;> simp
  · intro hno r c2 oi h hr
    have hb : (c.sw && !c.has_mit_shm) = false := by
      rcases hs : c.sw with _ | _ <;> rcases hm : c.has_mit_shm with _ | _ <;>
        simp_all
    unfold x11_acquire_next_image at h
    by_cases h0 : c.status < 0
    · rw [if_pos h0] at h
      injection h with h
      have h1 := congrArg Prod.fst h
      have h2 := congrArg (fun x => x.2.1) h
      dsimp only at h1 h2
      rw [← h2, ← h1]
    · rw [if_neg h0, hb] at h
      simp only [Bool.false_eq_true, if_false] at h
      by_cases hq : c.has_acquire_queue = true
      · rw [if_pos hq] at h
        injection h with h
        unfold x11_acquire_next_image_from_queue at h
        split at h
        · have hs := x11_acquire_result_neg c env.pullResult none
            (by rw [h]; exact hr)
          rw [h] at hs
          exact hs
        · have h1 := congrArg Prod.fst h
          dsimp only at h1
          exact absurd (by rw [h1]; exact hr) h0
      · rw [if_neg hq] at h
        exact x11_acquire_poll_neg_recorded env.pollSteps c t r c2 oi h hr

/-- Witness for c3_acquire_latch_scope at concrete inputs. -/
theorem c3_acquire_latch_scope_witness :
    (x11_acquire_next_image swChain Timeout.zero
        ⟨some (100, 100), 0, 0, []⟩).map (fun x => x.2.1.status)
      = some swChain.status ∧
    negChain.status = VK_ERROR_OUT_OF_DATE_KHR :=
  ⟨(c3_acquire_latch_scope swChain Timeout.zero
      ⟨some (100, 100), 0, 0, []⟩).1 rfl rfl,
   (c3_acquire_latch_scope negChain Timeout.zero
      ⟨some (100, 100), 0, 0, []⟩).2 (by decide) VK_ERROR_OUT_OF_DATE_KHR
      negChain none (by decide) (by decide)⟩

/-- A present environment with nothing pending and no server errors. -/
def emptyPresentEnv : PresentEnv :=
  { connLost := false, pendingEvents := [], presentError := false }

/-- n successive presents of image 0 through the DRI3 present primitive,
in a quiet environment. -/
def presentIter (c : Chain) : Nat → Chain
  | 0 => c
  | n + 1 => (x11_present_to_x11_dri3 (presentIter c n) 0 0 emptyPresentEnv).2.1

/-- The serial the n-th present stamped on image 0. -/
def serialOfPresent (c : Chain) (n : Nat) : Nat :=
  ((presentIter c n).images.getD 0 dfltImage).serial

/-- One quiet present of image 0: send_sbc is incremented modulo 2 to the
64 and the slot serial becomes its reduction modulo 2 to the 32. -/
theorem x11_present_step (c : Chain) (im : Image) (l : List Image)
    (him : c.images = im :: l) :
    (x11_present_to_x11_dri3 c 0 0 emptyPresentEnv).2.1.send_sbc
      = (c.send_sbc + 1) % 2 ^ 64 ∧
    (x11_present_to_x11_dri3 c 0 0 emptyPresentEnv).2.1.images
      = { im with
            present_queued := true,
            serial := (c.send_sbc + 1) % 2 ^ 64 % 2 ^ 32 } :: l := by
  constructor <;>
    simp [x11_present_to_x11_dri3, emptyPresentEnv, drainSpecialEvents, him,
      listModify]

/-- State after n quiet presents starting from a zeroed counter: send_sbc
is n modulo 2 to the 64, and (once at least one present happened) the
slot serial is that value reduced modulo 2 to the 32. -/
theorem presentIter_state (c : Chain) (im : Image) (l : List Image)
    (h0 : c.send_sbc = 0) (him : c.images = im :: l) :
    ∀ n, (presentIter c n).send_sbc = n % 2 ^ 64 ∧
      ∃ im2, (presentIter c n).images = im2 :: l ∧
        (0 < n → im2.serial = n % 2 ^ 64 % 2 ^ 32) := by
  intro n
  induction n with
  | zero =>
      refine ⟨by simpa [presentIter] using h0, im, him, ?_⟩
      intro h
      exact absurd h (by omega)
  | succ n ih =>
      obtain ⟨hsbc, im2, hi, _⟩ := ih
      obtain ⟨hstep1, hstep2⟩ := x11_present_step (presentIter c n) im2 l hi
      have hmod : (n % 2 ^ 64 + 1) % 2 ^ 64 = (n + 1) % 2 ^ 64 := by
        conv_rhs => rw [Nat.add_mod]
        rw [Nat.mod_eq_of_lt (show (1 : Nat) < 2 ^ 64 by norm_num)]
      refine ⟨?_, { im2 with
          present_queued := true,
          serial := ((presentIter c n).send_sbc + 1) % 2 ^ 64 % 2 ^ 32 },
        ?_, ?_⟩
      · show (x11_present_to_x11_dri3 (presentIter c n) 0 0
          emptyPresentEnv).2.1.send_sbc = (n + 1) % 2 ^ 64
        rw [hstep1, hsbc, hmod]
      · exact hstep2
      · intro _
        show ((presentIter c n).send_sbc + 1) % 2 ^ 64 % 2 ^ 32
          = (n + 1) % 2 ^ 64 % 2 ^ 32
        rw [hsbc, hmod]

/-- The serial stamped by the n-th quiet present is n modulo 2 to the 64,
reduced modulo 2 to the 32. -/
theorem serialOfPresent_eq (c : Chain) (im : Image) (l : List Image)
    (h0 : c.send_sbc = 0) (him : c.images = im :: l) (n : Nat)
    (hn : 0 < n) : serialOfPresent c n = n % 2 ^ 64 % 2 ^ 32 := by
  obtain ⟨-, im1, hi1, hs1⟩ := presentIter_state c im l h0 him n
  unfold serialOfPresent
  rw [hi1, List.getD_cons_zero]
  exact hs1 hn

/-- Claim C7, counterexample: the serial is the 32-bit truncation of
send_sbc, so present number 2 to the 32 plus 1 carries the same serial as
present number 1: serials are not distinct over all sequences of
presents. -/
theorem c7_serial_wraps :
    serialOfPresent baseChain (2 ^ 32 + 1) = serialOfPresent baseChain 1 ∧
    2 ^ 32 + 1 ≠ 1 := by
  rw [serialOfPresent_eq baseChain dfltImage [] rfl rfl (2 ^ 32 + 1)
      (by norm_num),
    serialOfPresent_eq baseChain dfltImage [] rfl rfl 1 (by norm_num)]
  constructor
  · norm_num
  · norm_num

/-- Claim C7, amended: send_sbc is incremented exactly once per present,
modulo 2 to the 64; the per-present serials (its 32-bit truncations) are
distinct and strictly increasing in submission order as long as fewer than
2 to the 32 presents have been issued. -/
theorem c7_send_sbc_serial (c : Chain) (im : Image) (l : List Image)
    (h0 : c.send_sbc = 0) (him : c.images = im :: l) (j k : Nat)
    (hj : 0 < j) (hjk : j < k) (hk : k < 2 ^ 32) :
    (presentIter c k).send_sbc = k % 2 ^ 64 ∧
    serialOfPresent c j < serialOfPresent c k := by
  refine ⟨(presentIter_state c im l h0 him k).1, ?_⟩
  rw [serialOfPresent_eq c im l h0 him j hj,
    serialOfPresent_eq c im l h0 him k (by omega)]
  have hj32 : j < 2 ^ 32 := lt_trans hjk hk
  have h64 : (2 : Nat) ^ 32 < 2 ^ 64 := by norm_num
  rw [Nat.mod_eq_of_lt (lt_trans hj32 h64), Nat.mod_eq_of_lt (lt_trans hk h64),
    Nat.mod_eq_of_lt hj32, Nat.mod_eq_of_lt hk]
  exact hjk

/-- Witness for c7_send_sbc_serial at concrete inputs. -/
theorem c7_send_sbc_serial_witness :
    baseChain.send_sbc = 0 ∧ (0 : Nat) < 1 ∧ (1 : Nat) < 2 ∧
    (2 : Nat) < 2 ^ 32 ∧
    ((presentIter baseChain 2).send_sbc = 2 % 2 ^ 64 ∧
      serialOfPresent baseChain 1 < serialOfPresent baseChain 2) :=
  ⟨rfl, by norm_num, by norm_num, by norm_num,
   c7_send_sbc_serial baseChain dfltImage [] rfl rfl 1 2 (by norm_num)
     (by norm_num) (by norm_num)⟩

end WsiX11
